import Mathlib

/-!
Shallow embedding of `script/tg_bot_alert.py`, a CLI utility that sends one
text message to a Telegram chat via the Telegram Bot HTTP API and exits 0 on
acknowledged success and 1 on any failure.

The external library boundary (`requests`, `json`) is modelled as an abstract
backend input: one invocation observes at most one HTTP exchange, which is
either a transport-level error (a `requests.exceptions.RequestException`
raised by `requests.post`) or a response with a status code and a body whose
JSON-parse outcome is given (the parse itself is the standard library's work,
not this repository's code).  Python values that can come out of `json.loads`
are modelled by `PyVal`, with Python truthiness and `str()` rendering.
-/

namespace TgBotAlert

/-- Python values as produced by parsing a JSON document (`response.json()`).
`none` models Python `None` (JSON `null`). -/
inductive PyVal where
  | none : PyVal
  | bool : Bool → PyVal
  | int : Int → PyVal
  | str : String → PyVal
  | list : List PyVal → PyVal
  | dict : List (String × PyVal) → PyVal

/-- Python truthiness of a value (`bool(v)`): `None`, `False`, `0`, `""` and
empty containers are falsy, everything else is truthy. -/
def PyVal.truthy : PyVal → Bool
  | .none => false
  | .bool b => b
  | .int n => n != 0
  | .str s => !s.isEmpty
  | .list xs => !xs.isEmpty
  | .dict kvs => !kvs.isEmpty

mutual

/-- Python `repr()` of a parsed JSON value (string quoting details are the
standard library's and immaterial to every claim; containers only matter in
that they render to some string). -/
def pyRepr : PyVal → String
  | .none => "None"
  | .bool true => "True"
  | .bool false => "False"
  | .int n => toString n
  | .str s => "\x27" ++ s ++ "\x27"
  | .list xs => "[" ++ pyReprSeq xs ++ "]"
  | .dict kvs => "\x7b" ++ pyReprEntries kvs ++ "\x7d"

/-- Comma-separated `repr`s of the elements of a Python list. -/
def pyReprSeq : List PyVal → String
  | [] => ""
  | [x] => pyRepr x
  | x :: y :: rest => pyRepr x ++ ", " ++ pyReprSeq (y :: rest)

/-- Comma-separated `key: value` `repr`s of the entries of a Python dict. -/
def pyReprEntries : List (String × PyVal) → String
  | [] => ""
  | [(k, v)] => "\x27" ++ k ++ "\x27: " ++ pyRepr v
  | (k, v) :: e :: rest => "\x27" ++ k ++ "\x27: " ++ pyRepr v ++ ", " ++ pyReprEntries (e :: rest)

end

/-- Python `str()` of a parsed JSON value, as used by an f-string:
`str` of a string is the string itself, otherwise it agrees with `repr`. -/
def pyStr : PyVal → String
  | .str s => s
  | v => pyRepr v

/-- Python `dict.get(k)` on a parsed JSON object: the value stored under `k`,
or `Option.none` when the key is absent. -/
def dictGet (kvs : List (String × PyVal)) (k : String) : Option PyVal :=
  (kvs.find? (fun p => p.1 == k)).map (fun p => p.2)

/-- The two environment variables read by the script via `os.getenv`:
`EMU_ALERT_TG_BOT_TOKEN` and `EMU_ALERT_TG_CHAT_ID`.  `Option.none` models an
unset variable. -/
structure Env where
  bot_token : Option String
  tg_chat_id : Option String

/-- Python truthiness of an `os.getenv` result: `not x` is `True` exactly when
the variable is unset (`None`) or set to the empty string. -/
def optTruthy : Option String → Bool
  | Option.none => false
  | some s => !s.isEmpty

/-- One outgoing HTTP POST as issued by `requests.post(url, json=data)`:
the target URL and the JSON body (a Python dict). -/
structure HttpRequest where
  url : String
  body : List (String × PyVal)

/-- The backend's reaction to the single HTTP POST of an invocation.
`transportError d` models a `requests.exceptions.RequestException` raised by
`requests.post` (connection error, timeout, ...) whose `str()` is `d`.
`response status body` models a completed HTTP response; `body` is the
outcome of JSON-parsing its body text (`Except.error d` when the body is not
valid JSON, with `d` the parse error's `str()`). -/
inductive HttpResult where
  | transportError : String → HttpResult
  | response : Nat → Except String PyVal → HttpResult

/-- How a call of `send_telegram_message` ends: a Python `return` with a
boolean, or an exception that propagates out of the function uncaught. -/
inductive SendOutcome where
  | returned : Bool → SendOutcome
  | raised : String → SendOutcome

/-- Observable effects of one call of `send_telegram_message`: the lines it
printed to stdout, the HTTP POSTs it attempted (in order), and how it ended. -/
structure SendEffects where
  lines : List String
  requests : List HttpRequest
  outcome : SendOutcome

/-- Rendering of `str(e)` for the `requests.exceptions.HTTPError` raised by
`Response.raise_for_status()` on a 4xx/5xx status.  The exact text is
generated inside the requests library; only the fact that the printed
diagnostic carries the network-error label matters to the claims. -/
def httpErrorDetail (status : Nat) (url : String) : String :=
  toString status ++ " Error for url: " ++ url

/-- Embedding of `send_telegram_message(text)` (lines 8-50 of the source),
parameterised by the environment and by the backend's reaction.

On the parse-failure branch: with requests ≥ 2.27 (released January 2022),
`response.json()` on an invalid body raises `requests.exceptions.JSONDecodeError`,
which subclasses `RequestException`; since the source's
`except requests.exceptions.RequestException` clause comes before its
`except json.JSONDecodeError` clause, the first clause catches it and the
network diagnostic is printed.  The dedicated parse diagnostic of line 49 is
unreachable on this path.

On a successfully parsed body that is not a dict, `result.get` raises
`AttributeError`, which neither except clause catches, so it propagates. -/
def send_telegram_message (env : Env) (backend : HttpResult) (text : String) : SendEffects :=
  if optTruthy env.bot_token = false then
    ⟨["Ошибка: не найден TELEGRAM_BOT_TOKEN в переменных окружения"], [], .returned false⟩
  else if optTruthy env.tg_chat_id = false then
    ⟨["Ошибка: не найден TELEGRAM_USER_ID в переменных окружения"], [], .returned false⟩
  else
    let bot_token := env.bot_token.getD ""
    let tg_chat_id := env.tg_chat_id.getD ""
    let url := "https://api.telegram.org/bot" ++ bot_token ++ "/sendMessage"
    let data : List (String × PyVal) :=
      [("chat_id", PyVal.str tg_chat_id), ("text", PyVal.str text), ("parse_mode", PyVal.str "HTML")]
    let req : HttpRequest := ⟨url, data⟩
    match backend with
    | .transportError detail =>
        ⟨["Ошибка сети: " ++ detail], [req], .returned false⟩
    | .response status body =>
        if 400 ≤ status ∧ status < 600 then
          ⟨["Ошибка сети: " ++ httpErrorDetail status url], [req], .returned false⟩
        else
          match body with
          | .error detail =>
              ⟨["Ошибка сети: " ++ detail], [req], .returned false⟩
          | .ok result =>
              match result with
              | .dict kvs =>
                  if ((dictGet kvs "ok").getD .none).truthy then
                    ⟨["Сообщение успешно отправлено!"], [req], .returned true⟩
                  else
                    ⟨["Ошибка API: " ++
                        pyStr ((dictGet kvs "description").getD (.str "Неизвестная ошибка"))],
                      [req], .returned false⟩
              | _ => ⟨[], [req], .raised "AttributeError"⟩

/-- Observable effects of one process run: stdout lines, attempted HTTP
POSTs, and the process exit code. -/
structure MainResult where
  lines : List String
  requests : List HttpRequest
  exitCode : Nat

/-- First usage line printed on wrong argument count (line 55 of the source). -/
def usageLine1 : String := "Использование: python telegram_sender.py \x27Текст сообщения\x27"

/-- Second usage line printed on wrong argument count (line 56 of the source). -/
def usageLine2 : String := "\nПеред использованием установите переменные окружения:"

/-- Embedding of `main()` (lines 53-64 of the source).  `args` is the list of
positional command-line arguments (`sys.argv[1:]`), so `len(sys.argv) != 2`
becomes `args.length ≠ 1`.  An exception propagating out of
`send_telegram_message` is uncaught; the Python interpreter then terminates
the process with exit status 1. -/
def main (args : List String) (env : Env) (backend : HttpResult) : MainResult :=
  match args with
  | [message_text] =>
      let eff := send_telegram_message env backend message_text
      ⟨eff.lines, eff.requests,
        match eff.outcome with
        | .returned true => 0
        | _ => 1⟩
  | _ => ⟨[usageLine1, usageLine2], [], 1⟩

/-- Two consecutive calls of `send_telegram_message` with identical arguments
against a stable mocked backend.  The source keeps no module-level mutable
state, so the embedding threads none between the calls. -/
def sendTwice (env : Env) (backend : HttpResult) (text : String) : SendEffects × SendEffects :=
  (send_telegram_message env backend text, send_telegram_message env backend text)

/-- Does the backend hold a response whose body is valid JSON for an object
whose `ok` field is the boolean `true`?  This follows the words of claim C1
("the HTTP response was valid JSON acknowledged by the API with ok == true"),
to be compared with what the code computes. -/
def respOkEqTrue : HttpResult → Bool
  | .response _ (.ok (.dict kvs)) =>
      match dictGet kvs "ok" with
      | some (.bool true) => true
      | _ => false
  | _ => false

/-- Does the backend hold a response that the code accepts as success: status
outside 400-599 (so `raise_for_status` does not raise), body valid JSON for
an object, and the object's `ok` field truthy? -/
def respOkTruthy : HttpResult → Bool
  | .response status (.ok (.dict kvs)) =>
      if 400 ≤ status ∧ status < 600 then false
      else ((dictGet kvs "ok").getD .none).truthy
  | _ => false

/-- The exact condition under which an invocation exits 0 (the amended claim
C1): exactly one argument, both environment variables truthy, and a response
the code accepts as success. -/
def specSuccess (args : List String) (env : Env) (backend : HttpResult) : Bool :=
  (args.length == 1) && optTruthy env.bot_token && optTruthy env.tg_chat_id
    && respOkTruthy backend

end TgBotAlert

namespace TgBotAlert

/-- C1 (counterexample): with both variables set, one argument, and the mocked
response `HTTP 200` with body `\x7b"ok": 2\x7d`, the process exits 0 although the
response is not valid JSON with `ok == true` (the `ok` field holds the number
2, which is truthy but not the boolean `true`, and `2 == True` is false even
under Python equality).  So exit code 0 does not imply `ok == true`. -/
theorem C1_counterexample :
    (main ["hi"] ⟨some "T", some "C"⟩
        (.response 200 (.ok (.dict [("ok", PyVal.int 2)])))).exitCode = 0 ∧
    respOkEqTrue (.response 200 (.ok (.dict [("ok", PyVal.int 2)]))) = false :=
  ⟨rfl, rfl⟩

/-- C1 (amended): the exit code is always 0 or 1, and it is 0 exactly when
exactly one argument was passed, both environment variables are set and
non-empty, the HTTP exchange succeeded (no transport error, status outside
400-599), the body parsed as a JSON object, and that object's `ok` field is
truthy. -/
theorem C1_exit_code (args : List String) (env : Env) (backend : HttpResult) :
    ((main args env backend).exitCode = 0 ↔ specSuccess args env backend = true) ∧
    (main args env backend).exitCode ≤ 1 := by
  obtain ⟨bt, cid⟩ := env
  match args with
  | [] => simp [main, specSuccess]
  | a :: b :: l => simp [main, specSuccess]
  | [t] =>
    cases hbt : optTruthy bt with
    | false => simp [main, send_telegram_message, specSuccess, hbt]
    | true =>
      cases hc : optTruthy cid with
      | false => simp [main, send_telegram_message, specSuccess, hbt, hc]
      | true =>
        cases backend with
        | transportError d =>
            simp [main, send_telegram_message, specSuccess, respOkTruthy, hbt, hc]
        | response status body =>
            by_cases hs : 400 ≤ status ∧ status < 600
            · cases body with
              | error d =>
                  simp [main, send_telegram_message, specSuccess, respOkTruthy, hbt, hc, hs]
              | ok v =>
                  cases v <;>
                    simp [main, send_telegram_message, specSuccess, respOkTruthy, hbt, hc, hs]
            · cases body with
              | error d =>
                  simp [main, send_telegram_message, specSuccess, respOkTruthy, hbt, hc, hs]
              | ok v =>
                  cases v with
                  | dict kvs =>
                    cases ht : ((dictGet kvs "ok").getD PyVal.none).truthy <;>
                      simp [main, send_telegram_message, specSuccess, respOkTruthy,
                        hbt, hc, hs, ht]
                  | none =>
                    simp [main, send_telegram_message, specSuccess, respOkTruthy, hbt, hc, hs]
                  | bool b =>
                    simp [main, send_telegram_message, specSuccess, respOkTruthy, hbt, hc, hs]
                  | int n =>
                    simp [main, send_telegram_message, specSuccess, respOkTruthy, hbt, hc, hs]
                  | str s =>
                    simp [main, send_telegram_message, specSuccess, respOkTruthy, hbt, hc, hs]
                  | list xs =>
                    simp [main, send_telegram_message, specSuccess, respOkTruthy, hbt, hc, hs]

/-- C4: the code-level outcome at the failing input: both variables set, one
argument, mocked response `HTTP 200` with a non-JSON body.  The printed
diagnostic is the network-error line carrying the parse detail — not the
dedicated parse-error line — because `requests.exceptions.JSONDecodeError`
(raised by `response.json()` since requests 2.27) subclasses
`RequestException` and the `RequestException` handler comes first in the
source.  The process still exits 1. -/
theorem C4_parse_failure_masked :
    (send_telegram_message ⟨some "T", some "C"⟩
        (.response 200 (.error "Expecting value: line 1 column 1 (char 0)")) "hi").lines
      = ["Ошибка сети: Expecting value: line 1 column 1 (char 0)"] ∧
    (main ["hi"] ⟨some "T", some "C"⟩
        (.response 200 (.error "Expecting value: line 1 column 1 (char 0)"))).exitCode = 1 :=
  ⟨rfl, rfl⟩

/-- C8: `send_telegram_message` is deterministic and keeps no state between
calls: two consecutive calls with identical arguments, identical environment,
and an identical mocked backend produce identical outcomes (same printed
lines, same attempted requests, same return value). -/
theorem C8_deterministic (env : Env) (backend : HttpResult) (text : String) :
    (sendTwice env backend text).1 = send_telegram_message env backend text ∧
    (sendTwice env backend text).2 = send_telegram_message env backend text ∧
    (sendTwice env backend text).1 = (sendTwice env backend text).2 :=
  ⟨rfl, rfl, rfl⟩

/-- C2: when either required environment variable is missing (Python-falsy),
`send_telegram_message` attempts no HTTP request, prints exactly one
configuration-missing diagnostic, returns `False`, and the process exits 1;
and the token is checked before the chat id: whenever the token is missing,
the token diagnostic (not the chat-id one) is the one printed. -/
theorem C2_missing_config (env : Env) (backend : HttpResult) (text : String)
    (h : optTruthy env.bot_token = false ∨ optTruthy env.tg_chat_id = false) :
    (send_telegram_message env backend text).requests = [] ∧
    ((send_telegram_message env backend text).lines =
        ["Ошибка: не найден TELEGRAM_BOT_TOKEN в переменных окружения"] ∨
      (send_telegram_message env backend text).lines =
        ["Ошибка: не найден TELEGRAM_USER_ID в переменных окружения"]) ∧
    (send_telegram_message env backend text).outcome = .returned false ∧
    (main [text] env backend).exitCode = 1 ∧
    (optTruthy env.bot_token = false →
      (send_telegram_message env backend text).lines =
        ["Ошибка: не найден TELEGRAM_BOT_TOKEN в переменных окружения"]) := by
  cases hbt : optTruthy env.bot_token with
  | false => simp [main, send_telegram_message, hbt]
  | true =>
    rcases h with h | h
    · rw [hbt] at h; exact absurd h (by simp)
    · simp [main, send_telegram_message, hbt, h]

/-- C2 witness: the unset-token case at a concrete input. -/
theorem C2_missing_config_witness :
    (send_telegram_message ⟨Option.none, some "42"⟩ (.transportError "boom") "msg").requests = [] ∧
    ((send_telegram_message ⟨Option.none, some "42"⟩ (.transportError "boom") "msg").lines =
        ["Ошибка: не найден TELEGRAM_BOT_TOKEN в переменных окружения"] ∨
      (send_telegram_message ⟨Option.none, some "42"⟩ (.transportError "boom") "msg").lines =
        ["Ошибка: не найден TELEGRAM_USER_ID в переменных окружения"]) ∧
    (send_telegram_message ⟨Option.none, some "42"⟩ (.transportError "boom") "msg").outcome
        = .returned false ∧
    (main ["msg"] ⟨Option.none, some "42"⟩ (.transportError "boom")).exitCode = 1 ∧
    (optTruthy (Option.none : Option String) = false →
      (send_telegram_message ⟨Option.none, some "42"⟩ (.transportError "boom") "msg").lines =
        ["Ошибка: не найден TELEGRAM_BOT_TOKEN в переменных окружения"]) :=
  C2_missing_config ⟨Option.none, some "42"⟩ (.transportError "boom") "msg" (Or.inl rfl)

/-- C3: when the response parses to a JSON object whose `ok` field is absent
or is the boolean `false` (and the status does not trigger
`raise_for_status`), `send_telegram_message` returns `False`, the process
exits 1, and the printed diagnostic is the API-error line carrying the
API-provided `description` string, or the generic fallback when
`description` is absent. -/
theorem C3_api_failure (env : Env) (text : String) (status : Nat)
    (kvs : List (String × PyVal))
    (hbt : optTruthy env.bot_token = true) (hc : optTruthy env.tg_chat_id = true)
    (hs : ¬(400 ≤ status ∧ status < 600))
    (hok : dictGet kvs "ok" = Option.none ∨ dictGet kvs "ok" = some (PyVal.bool false)) :
    (send_telegram_message env (.response status (.ok (.dict kvs))) text).outcome
        = .returned false ∧
    (main [text] env (.response status (.ok (.dict kvs)))).exitCode = 1 ∧
    (∀ d : String, dictGet kvs "description" = some (PyVal.str d) →
      (send_telegram_message env (.response status (.ok (.dict kvs))) text).lines
        = ["Ошибка API: " ++ d]) ∧
    (dictGet kvs "description" = Option.none →
      (send_telegram_message env (.response status (.ok (.dict kvs))) text).lines
        = ["Ошибка API: Неизвестная ошибка"]) := by
  have ht : ((dictGet kvs "ok").getD PyVal.none).truthy = false := by
    rcases hok with h | h <;> simp [h, PyVal.truthy]
  refine ⟨?_, ?_, ?_, ?_⟩
  · simp [send_telegram_message, hbt, hc, hs, ht]
  · simp [main, send_telegram_message, hbt, hc, hs, ht]
  · intro d hd
    simp [send_telegram_message, hbt, hc, hs, ht, hd, pyStr]
  · intro hd
    simp [send_telegram_message, hbt, hc, hs, ht, hd, pyStr]

/-- C3 witness: the spec's mocked response
`\x7b"ok": false, "description": "chat not found"\x7d` at a concrete input. -/
theorem C3_api_failure_witness :
    (send_telegram_message ⟨some "T", some "C"⟩
        (.response 200 (.ok (.dict
          [("ok", PyVal.bool false), ("description", PyVal.str "chat not found")]))) "m").outcome
        = .returned false ∧
    (main ["m"] ⟨some "T", some "C"⟩
        (.response 200 (.ok (.dict
          [("ok", PyVal.bool false), ("description", PyVal.str "chat not found")])))).exitCode
        = 1 ∧
    (∀ d : String,
      dictGet [("ok", PyVal.bool false), ("description", PyVal.str "chat not found")]
          "description" = some (PyVal.str d) →
      (send_telegram_message ⟨some "T", some "C"⟩
          (.response 200 (.ok (.dict
            [("ok", PyVal.bool false), ("description", PyVal.str "chat not found")]))) "m").lines
        = ["Ошибка API: " ++ d]) ∧
    (dictGet [("ok", PyVal.bool false), ("description", PyVal.str "chat not found")]
        "description" = Option.none →
      (send_telegram_message ⟨some "T", some "C"⟩
          (.response 200 (.ok (.dict
            [("ok", PyVal.bool false), ("description", PyVal.str "chat not found")]))) "m").lines
        = ["Ошибка API: Неизвестная ошибка"]) :=
  C3_api_failure ⟨some "T", some "C"⟩ "m" 200
    [("ok", PyVal.bool false), ("description", PyVal.str "chat not found")]
    rfl rfl (by decide) (Or.inr rfl)

/-- C5: whenever both environment variables are set and non-empty, the
invocation attempts exactly one HTTP POST, to exactly
`https://api.telegram.org/bot<token>/sendMessage`, with a JSON body holding
exactly the fields `chat_id` (the configured chat id), `text` (the message
argument), and `parse_mode = "HTML"` — whatever the backend then does. -/
theorem C5_request_shape (bt cid : String) (hbt : bt ≠ "") (hc : cid ≠ "")
    (backend : HttpResult) (text : String) :
    (send_telegram_message ⟨some bt, some cid⟩ backend text).requests
      = [⟨"https://api.telegram.org/bot" ++ bt ++ "/sendMessage",
          [("chat_id", PyVal.str cid), ("text", PyVal.str text),
            ("parse_mode", PyVal.str "HTML")]⟩] := by
  have hbt0 : bt.isEmpty = false := by
    cases h : bt.isEmpty
    · rfl
    · exact absurd ((String.isEmpty_iff bt).mp h) hbt
  have hc0 : cid.isEmpty = false := by
    cases h : cid.isEmpty
    · rfl
    · exact absurd ((String.isEmpty_iff cid).mp h) hc
  have hbt2 : optTruthy (some bt) = true := by simp [optTruthy, hbt0]
  have hc2 : optTruthy (some cid) = true := by simp [optTruthy, hc0]
  cases backend with
  | transportError d => simp [send_telegram_message, hbt2, hc2]
  | response status body =>
      by_cases hs : 400 ≤ status ∧ status < 600
      · simp [send_telegram_message, hbt2, hc2, hs]
      · cases body with
        | error d => simp [send_telegram_message, hbt2, hc2, hs]
        | ok v =>
            cases v with
            | dict kvs =>
                cases ht : ((dictGet kvs "ok").getD PyVal.none).truthy <;>
                  simp [send_telegram_message, hbt2, hc2, hs, ht]
            | none => simp [send_telegram_message, hbt2, hc2, hs]
            | bool b => simp [send_telegram_message, hbt2, hc2, hs]
            | int n => simp [send_telegram_message, hbt2, hc2, hs]
            | str s => simp [send_telegram_message, hbt2, hc2, hs]
            | list xs => simp [send_telegram_message, hbt2, hc2, hs]

/-- C5 witness: the request issued at a concrete input. -/
theorem C5_request_shape_witness :
    (send_telegram_message ⟨some "TOK", some "42"⟩ (.transportError "x") "hello").requests
      = [⟨"https://api.telegram.org/bot" ++ "TOK" ++ "/sendMessage",
          [("chat_id", PyVal.str "42"), ("text", PyVal.str "hello"),
            ("parse_mode", PyVal.str "HTML")]⟩] :=
  C5_request_shape "TOK" "42" (by decide) (by decide) (.transportError "x") "hello"

/-- C6: with any argument count other than one, the process prints exactly
the two usage lines to stdout, attempts no HTTP request, and exits 1; the
outcome does not depend on the environment or on the backend, so no
configuration is read and no network call is attempted. -/
theorem C6_usage (args : List String) (env : Env) (backend : HttpResult)
    (h : args.length ≠ 1) :
    main args env backend = ⟨[usageLine1, usageLine2], [], 1⟩ ∧
    (∀ (env2 : Env) (backend2 : HttpResult), main args env2 backend2 = main args env backend) := by
  match args with
  | [] => exact ⟨rfl, fun _ _ => rfl⟩
  | [t] => exact absurd rfl h
  | a :: b :: l => exact ⟨rfl, fun _ _ => rfl⟩

/-- C6 witness: the zero-argument case at a concrete input. -/
theorem C6_usage_witness :
    main [] ⟨Option.none, Option.none⟩ (.transportError "x")
      = ⟨[usageLine1, usageLine2], [], 1⟩ :=
  (C6_usage [] ⟨Option.none, Option.none⟩ (.transportError "x") (by decide)).1

/-- C7: every invocation attempts at most one HTTP POST, and it attempts
exactly one precisely when the argument count is one and both environment
variables are set and non-empty; no failure outcome triggers a second
attempt. -/
theorem C7_single_attempt (args : List String) (env : Env) (backend : HttpResult) :
    (main args env backend).requests.length ≤ 1 ∧
    ((main args env backend).requests.length = 1 ↔
      (args.length = 1 ∧ optTruthy env.bot_token = true ∧ optTruthy env.tg_chat_id = true)) := by
  obtain ⟨bt, cid⟩ := env
  match args with
  | [] => simp [main]
  | a :: b :: l => simp [main]
  | [t] =>
    cases hbt : optTruthy bt with
    | false => simp [main, send_telegram_message, hbt]
    | true =>
      cases hc : optTruthy cid with
      | false => simp [main, send_telegram_message, hbt, hc]
      | true =>
        cases backend with
        | transportError d => simp [main, send_telegram_message, hbt, hc]
        | response status body =>
            by_cases hs : 400 ≤ status ∧ status < 600
            · cases body with
              | error d => simp [main, send_telegram_message, hbt, hc, hs]
              | ok v =>
                  cases v <;> simp [main, send_telegram_message, hbt, hc, hs]
            · cases body with
              | error d => simp [main, send_telegram_message, hbt, hc, hs]
              | ok v =>
                  cases v with
                  | dict kvs =>
                      cases ht : ((dictGet kvs "ok").getD PyVal.none).truthy <;>
                        simp [main, send_telegram_message, hbt, hc, hs, ht]
                  | none => simp [main, send_telegram_message, hbt, hc, hs]
                  | bool b => simp [main, send_telegram_message, hbt, hc, hs]
                  | int n => simp [main, send_telegram_message, hbt, hc, hs]
                  | str s => simp [main, send_telegram_message, hbt, hc, hs]
                  | list xs => simp [main, send_telegram_message, hbt, hc, hs]

/-- C9: an environment variable that is set to the empty string behaves
exactly like an unset one (`not x` is a truthiness check): with an empty
token the invocation behaves identically to the unset-token case — the
token-missing diagnostic, no HTTP request, exit 1 — and likewise an empty
chat id behaves identically to the unset-chat-id case. -/
theorem C9_empty_as_missing (v : Option String) (backend : HttpResult) (text : String) :
    send_telegram_message ⟨some "", v⟩ backend text
        = send_telegram_message ⟨Option.none, v⟩ backend text ∧
    (send_telegram_message ⟨some "", v⟩ backend text).requests = [] ∧
    (send_telegram_message ⟨some "", v⟩ backend text).lines
        = ["Ошибка: не найден TELEGRAM_BOT_TOKEN в переменных окружения"] ∧
    (main [text] ⟨some "", v⟩ backend).exitCode = 1 ∧
    send_telegram_message ⟨v, some ""⟩ backend text
        = send_telegram_message ⟨v, Option.none⟩ backend text ∧
    (send_telegram_message ⟨v, some ""⟩ backend text).requests = [] ∧
    (main [text] ⟨v, some ""⟩ backend).exitCode = 1 := by
  have h1 : optTruthy (some "") = false := by decide
  have hnone : optTruthy (Option.none : Option String) = false := rfl
  cases hv : optTruthy v <;>
    simp [main, send_telegram_message, h1, hnone, hv]

/-- C10: success is decided by Python truthiness of the `ok` field, not by
equality with the boolean `true`: whenever the response parses to a JSON
object whose `ok` field holds any truthy value (for example the number 1 or
a non-empty string), `send_telegram_message` prints the success line,
returns `True`, and the process exits 0. -/
theorem C10_truthy_ok_success (env : Env) (text : String) (status : Nat)
    (kvs : List (String × PyVal)) (v : PyVal)
    (hbt : optTruthy env.bot_token = true) (hc : optTruthy env.tg_chat_id = true)
    (hs : ¬(400 ≤ status ∧ status < 600))
    (hok : dictGet kvs "ok" = some v) (hv : v.truthy = true) :
    (send_telegram_message env (.response status (.ok (.dict kvs))) text).outcome
        = .returned true ∧
    (send_telegram_message env (.response status (.ok (.dict kvs))) text).lines
        = ["Сообщение успешно отправлено!"] ∧
    (main [text] env (.response status (.ok (.dict kvs)))).exitCode = 0 := by
  have ht : ((dictGet kvs "ok").getD PyVal.none).truthy = true := by
    simp [hok, hv]
  refine ⟨?_, ?_, ?_⟩ <;> simp [main, send_telegram_message, hbt, hc, hs, ht]

/-- C10 witness: the response `\x7b"ok": 1\x7d` at a concrete input. -/
theorem C10_truthy_ok_success_witness :
    (send_telegram_message ⟨some "T", some "C"⟩
        (.response 200 (.ok (.dict [("ok", PyVal.int 1)]))) "m").outcome
        = .returned true ∧
    (send_telegram_message ⟨some "T", some "C"⟩
        (.response 200 (.ok (.dict [("ok", PyVal.int 1)]))) "m").lines
        = ["Сообщение успешно отправлено!"] ∧
    (main ["m"] ⟨some "T", some "C"⟩
        (.response 200 (.ok (.dict [("ok", PyVal.int 1)])))).exitCode = 0 :=
  C10_truthy_ok_success ⟨some "T", some "C"⟩ "m" 200 [("ok", PyVal.int 1)]
    (PyVal.int 1) rfl rfl (by decide) rfl (by decide)

end TgBotAlert
